import Mathlib

/-!
Verification of the posture-pal frame-to-classification pipeline.

The definitions below are a shallow embedding of the pose-detection hook
in src/hooks/usePoseDetection.ts (the TensorFlow.js MoveNet variant, the
file that is part of the built application).  JavaScript numbers are
modelled as exact rationals for landmark coordinates and as real numbers
where the angle computation (Math.atan2, pi) is involved.  The
asynchronous sampling loop (requestAnimationFrame, the awaited
estimatePoses promise, stopDetection) is modelled as an explicit event
step relation on a session state.
-/

namespace PosturePal

/-- A 2-D point, as produced by the pose model (JS object with x and y). -/
structure Point where
  x : ℚ
  y : ℚ
deriving DecidableEq, Repr

/-- The five named optional landmarks tracked by the system
(interface Landmarks in usePoseDetection.ts, lines 19 to 25). -/
structure Landmarks where
  nose : Option Point
  leftShoulder : Option Point
  rightShoulder : Option Point
  leftHip : Option Point
  rightHip : Option Point
deriving DecidableEq, Repr

/-- The discrete posture state (type PostureStatus in the source). -/
inductive PostureStatus where
  | initializing : PostureStatus
  | good : PostureStatus
  | bad : PostureStatus
deriving DecidableEq, Repr

/-- One raw keypoint from the inference engine: a name, coordinates, and
an optional confidence score (poseDetection.Keypoint). -/
structure Keypoint where
  name : String
  x : ℚ
  y : ℚ
  score : Option ℚ
deriving DecidableEq, Repr

/-- One detected pose: a keypoint list plus an optional pose-level score. -/
structure Pose where
  keypoints : List Keypoint
  score : Option ℚ
deriving DecidableEq, Repr

/-- BACK_ANGLE_THRESHOLD = 15 (usePoseDetection.ts line 36). -/
def BACK_ANGLE_THRESHOLD {α : Type} [LinearOrderedField α] : α := 15

/-- NECK_FORWARD_THRESHOLD = 30 (usePoseDetection.ts line 37). -/
def NECK_FORWARD_THRESHOLD {α : Type} [LinearOrderedField α] : α := 30

/-- classifyPosture (usePoseDetection.ts lines 96 to 123).  The landmark
completeness test mirrors the JS truthiness conjunction on the four
required fields; the two threshold comparisons are strict, combined by a
logical OR.  The numeric argument type is any linear ordered field so
that the same definition serves the exact rational evaluations and the
real-valued pipeline. -/
def classifyPosture {α : Type} [LinearOrderedField α]
    (landmarks : Landmarks) (backAngle neckForwardDistance : α) : PostureStatus :=
  if !(landmarks.leftShoulder.isSome && landmarks.rightShoulder.isSome &&
       landmarks.leftHip.isSome && landmarks.rightHip.isSome) then
    PostureStatus.initializing
  else if |backAngle| > BACK_ANGLE_THRESHOLD ∨
          neckForwardDistance > NECK_FORWARD_THRESHOLD then
    PostureStatus.bad
  else
    PostureStatus.good

/-- findKeypoint (usePoseDetection.ts lines 131 to 137): look the name up
with List.find, then test the JS truthiness conjunction
kp and kp.score and kp.score greater than 0.3.  An absent score field is
falsy in JS, so it yields null; a score of 0 is also falsy, and is
likewise rejected by the strict comparison with 0.3. -/
def findKeypoint (keypoints : List Keypoint) (name : String) : Option Point :=
  match keypoints.find? (fun k => k.name == name) with
  | some kp =>
      match kp.score with
      | some s => if s > 0.3 then some ⟨kp.x, kp.y⟩ else none
      | none => none
  | none => none

/-- extractLandmarks (usePoseDetection.ts lines 128 to 146). -/
def extractLandmarks (keypoints : List Keypoint) : Landmarks :=
  { nose := findKeypoint keypoints ("nose")
    leftShoulder := findKeypoint keypoints ("left_shoulder")
    rightShoulder := findKeypoint keypoints ("right_shoulder")
    leftHip := findKeypoint keypoints ("left_hip")
    rightHip := findKeypoint keypoints ("right_hip") }

/-- The shoulder midpoint of processFrame (usePoseDetection.ts lines 162
to 168): the coordinate-wise average when both shoulders are present,
the JS default of (0, 0) otherwise. -/
def shoulderMid (landmarks : Landmarks) : Point :=
  match landmarks.leftShoulder, landmarks.rightShoulder with
  | some l, some r => ⟨(l.x + r.x) / 2, (l.y + r.y) / 2⟩
  | _, _ => ⟨0, 0⟩

/-- The hip midpoint of processFrame (usePoseDetection.ts lines 170 to
176). -/
def hipMid (landmarks : Landmarks) : Point :=
  match landmarks.leftHip, landmarks.rightHip with
  | some l, some r => ⟨(l.x + r.x) / 2, (l.y + r.y) / 2⟩
  | _, _ => ⟨0, 0⟩

open Classical in
/-- Math.atan2, with the quadrant conventions of the JS specification
restricted to signed-zero-free reals: the first argument is the y
component, the second the x component. -/
noncomputable def atan2 (y x : ℝ) : ℝ :=
  if 0 < x then Real.arctan (y / x)
  else if x < 0 then
    (if 0 ≤ y then Real.arctan (y / x) + Real.pi
     else Real.arctan (y / x) - Real.pi)
  else if 0 < y then Real.pi / 2
  else if y < 0 then -(Real.pi / 2)
  else 0

/-- calculateAngleFromVertical (usePoseDetection.ts lines 73 to 87):
dx = top.x - bottom.x, dy = bottom.y - top.y (inverted because the y
coordinate increases downward), angle = atan2(dx, dy) in degrees. -/
noncomputable def calculateAngleFromVertical (top bottom : Point) : ℝ :=
  atan2 ((top.x : ℝ) - (bottom.x : ℝ)) ((bottom.y : ℝ) - (top.y : ℝ)) * 180 / Real.pi

/-- The back-angle computation of processFrame (usePoseDetection.ts lines
178 to 185): the angle is computed only when both midpoint y coordinates
are nonzero, and is the JS default 0 otherwise. -/
noncomputable def computeBackAngle (landmarks : Landmarks) : ℝ :=
  if (shoulderMid landmarks).y ≠ 0 ∧ (hipMid landmarks).y ≠ 0 then
    calculateAngleFromVertical (shoulderMid landmarks) (hipMid landmarks)
  else 0

/-- The neck-forward-distance computation of processFrame
(usePoseDetection.ts lines 187 to 193): the absolute horizontal nose
offset, computed only when the nose is present and the shoulder midpoint
x coordinate is nonzero, and the JS default 0 otherwise. -/
def neckForwardDistance (landmarks : Landmarks) : ℚ :=
  match landmarks.nose with
  | some nose => if (shoulderMid landmarks).x ≠ 0 then |nose.x - (shoulderMid landmarks).x| else 0
  | none => 0

/-- The published snapshot (interface PostureData, usePoseDetection.ts
lines 27 to 33). -/
structure PostureData where
  status : PostureStatus
  landmarks : Landmarks
  neckAngle : ℚ
  backAngle : ℝ
  confidence : ℚ

/-- The useState initial value of postureData (usePoseDetection.ts lines
48 to 60). -/
noncomputable def initialPostureData : PostureData :=
  { status := PostureStatus.initializing
    landmarks := ⟨none, none, none, none, none⟩
    neckAngle := 0
    backAngle := 0
    confidence := 0 }

/-- The pure per-frame result handling of processFrame (usePoseDetection.ts
lines 158 to 215): when the pose list is empty nothing happens and the
previous snapshot stays; otherwise the first pose is extracted,
the features are computed, and a new snapshot is assembled.
pose.score or 0 is modelled by Option.getD 0. -/
noncomputable def processFrameUpdate (prev : PostureData) (poses : List Pose) : PostureData :=
  match poses with
  | [] => prev
  | pose :: _ =>
      let landmarks := extractLandmarks pose.keypoints
      let backAngle := computeBackAngle landmarks
      let neckDist := neckForwardDistance landmarks
      let status := classifyPosture landmarks backAngle ((neckDist : ℚ) : ℝ)
      { status := status
        landmarks := landmarks
        neckAngle := neckDist
        backAngle := backAngle
        confidence := pose.score.getD 0 }

/-- The mutable session state of the hook: animationFrameRef.current, the
id of the requestAnimationFrame callback currently scheduled in the
browser (if any), the number of estimatePoses awaits outstanding, a fresh
id counter (browser rAF ids are positive), the current postureData, and
the log of setPostureData publications performed by processFrame. -/
structure SessionState where
  ref : Option Nat
  pending : Option Nat
  inflight : Nat
  nextId : Nat
  data : PostureData
  log : List PostureData

/-- The scheduler-level events the hook reacts to: startDetection with a
ready detector, stopDetection, the browser firing the scheduled
animation-frame callback, and the outstanding estimatePoses promise
resolving with a pose list or rejecting. -/
inductive Event where
  | start : Event
  | stop : Event
  | fire : Event
  | resolveOk : List Pose → Event
  | resolveErr : Event

/-- One scheduler step, translated from usePoseDetection.ts:
start (lines 265 to 270) invokes processFrame when no animation frame is
recorded, which runs to its first await; stop (lines 275 to 280) cancels
the recorded animation-frame id, a no-op on an id whose callback already
ran; fire consumes the scheduled callback and runs processFrame to its
first await; a resolution (lines 158 to 221) updates and publishes the
snapshot only when the pose list is nonempty, an error (lines 216 to 218)
is caught and only logged to the console, and both paths then
unconditionally schedule the next frame (line 221), storing the fresh id
in animationFrameRef. -/
noncomputable def step (s : SessionState) (e : Event) : SessionState :=
  match e with
  | Event.start =>
      if s.ref = none then { s with inflight := s.inflight + 1 } else s
  | Event.stop =>
      match s.ref with
      | some id =>
          { s with ref := none
                   pending := if s.pending = some id then none else s.pending }
      | none => s
  | Event.fire =>
      match s.pending with
      | some _ => { s with pending := none, inflight := s.inflight + 1 }
      | none => s
  | Event.resolveOk poses =>
      if s.inflight = 0 then s
      else
        let d := processFrameUpdate s.data poses
        { s with data := d
                 log := if poses.isEmpty then s.log else s.log ++ [d]
                 inflight := s.inflight - 1
                 pending := some s.nextId
                 ref := some s.nextId
                 nextId := s.nextId + 1 }
  | Event.resolveErr =>
      if s.inflight = 0 then s
      else
        { s with inflight := s.inflight - 1
                 pending := some s.nextId
                 ref := some s.nextId
                 nextId := s.nextId + 1 }

/-- Run a list of scheduler events from a session state. -/
noncomputable def run (s : SessionState) (events : List Event) : SessionState :=
  events.foldl step s

/-- The session state right after mounting: nothing scheduled, nothing in
flight, the initial posture data, nothing published. -/
noncomputable def initialState : SessionState :=
  { ref := none
    pending := none
    inflight := 0
    nextId := 1
    data := initialPostureData
    log := [] }

/-- The four required landmarks of the classifier are all present. -/
def requiredLandmarksPresent (landmarks : Landmarks) : Prop :=
  landmarks.leftShoulder.isSome ∧ landmarks.rightShoulder.isSome ∧
  landmarks.leftHip.isSome ∧ landmarks.rightHip.isSome

instance (landmarks : Landmarks) : Decidable (requiredLandmarksPresent landmarks) := by
  unfold requiredLandmarksPresent
  infer_instance

/-- A complete example landmark set used for concrete boundary checks. -/
def lmComplete : Landmarks :=
  ⟨some ⟨2, 0⟩, some ⟨1, 1⟩, some ⟨3, 1⟩, some ⟨1, 3⟩, some ⟨3, 3⟩⟩

/-- A pose whose four shoulder and hip keypoints are confidently detected
and vertically aligned: shoulder midpoint (2, 1), hip midpoint (2, 3). -/
def testPose : Pose :=
  { keypoints :=
      [⟨("left_shoulder"), 1, 1, some (9 / 10)⟩,
       ⟨("right_shoulder"), 3, 1, some (9 / 10)⟩,
       ⟨("left_hip"), 1, 3, some (9 / 10)⟩,
       ⟨("right_hip"), 3, 3, some (9 / 10)⟩]
    score := some (9 / 10) }

/-- The landmark set extracted from testPose: every keypoint passes the
confidence gate and there is no nose keypoint. -/
def lmGood : Landmarks :=
  ⟨none, some ⟨1, 1⟩, some ⟨3, 1⟩, some ⟨1, 3⟩, some ⟨3, 3⟩⟩

/-- Landmarks whose shoulder midpoint is (1, 0) and hip midpoint (0, 1):
both midpoints differ from (0, 0), yet the shoulder midpoint has a zero y
coordinate. -/
def lmC6 : Landmarks :=
  ⟨none, some ⟨0, 0⟩, some ⟨2, 0⟩, some ⟨-1, 1⟩, some ⟨1, 1⟩⟩

/-- Landmarks with a nose at (5, 5) and shoulder midpoint (0, 2): the
midpoint differs from (0, 0), yet its x coordinate is zero. -/
def lmC7 : Landmarks :=
  ⟨some ⟨5, 5⟩, some ⟨-1, 2⟩, some ⟨1, 2⟩, some ⟨1, 3⟩, some ⟨3, 3⟩⟩

/-- Landmarks with a nose at (5, 5) and shoulder midpoint (2, 2). -/
def lmW : Landmarks :=
  ⟨some ⟨5, 5⟩, some ⟨1, 2⟩, some ⟨3, 2⟩, some ⟨1, 3⟩, some ⟨3, 3⟩⟩

/-- When the four required landmarks are all present, the classifier only
consults the two threshold comparisons. -/
theorem classifyPosture_of_required {α : Type} [LinearOrderedField α]
    (lm : Landmarks) (h : requiredLandmarksPresent lm) (a d : α) :
    classifyPosture lm a d =
      if |a| > BACK_ANGLE_THRESHOLD ∨ d > NECK_FORWARD_THRESHOLD then
        PostureStatus.bad
      else PostureStatus.good := by
  obtain ⟨h1, h2, h3, h4⟩ := h
  unfold classifyPosture
  simp [h1, h2, h3, h4]

/-- When a required landmark is missing the classifier is initializing. -/
theorem classifyPosture_of_missing {α : Type} [LinearOrderedField α]
    (lm : Landmarks) (h : ¬ requiredLandmarksPresent lm) (a d : α) :
    classifyPosture lm a d = PostureStatus.initializing := by
  have hb : (lm.leftShoulder.isSome && lm.rightShoulder.isSome &&
      lm.leftHip.isSome && lm.rightHip.isSome) = false := by
    by_contra hc
    apply h
    have ht := Bool.of_not_eq_false hc
    simp only [Bool.and_eq_true] at ht
    exact ⟨ht.1.1.1, ht.1.1.2, ht.1.2, ht.2⟩
  unfold classifyPosture
  simp [hb]

/-- A classifier result of good or bad forces the four required landmarks
to be present. -/
theorem requiredLandmarksPresent_of_classify {α : Type} [LinearOrderedField α]
    (lm : Landmarks) (a d : α)
    (h : classifyPosture lm a d = PostureStatus.good ∨
         classifyPosture lm a d = PostureStatus.bad) :
    requiredLandmarksPresent lm := by
  by_contra hc
  rw [classifyPosture_of_missing lm hc a d] at h
  rcases h with h | h <;> exact PostureStatus.noConfusion h

/-- Claim C1: for every landmark set in which at least one of
leftShoulder, rightShoulder, leftHip, rightHip is null, classifyPosture
returns initializing regardless of the backAngle and neckForwardDistance
arguments (over any linear ordered field of feature values), and a null
nose alone never causes initializing. -/
theorem classify_missing_landmark_initializing :
    (∀ {α : Type} [LinearOrderedField α]
        (lm : Landmarks) (backAngle neckForwardDistance : α),
        lm.leftShoulder = none ∨ lm.rightShoulder = none ∨
        lm.leftHip = none ∨ lm.rightHip = none →
        classifyPosture lm backAngle neckForwardDistance = PostureStatus.initializing)
    ∧ (∀ {α : Type} [LinearOrderedField α]
        (l r lh rh : Point) (backAngle neckForwardDistance : α),
        classifyPosture ⟨none, some l, some r, some lh, some rh⟩
          backAngle neckForwardDistance ≠ PostureStatus.initializing) := by
  constructor
  · intro α _inst lm a d h
    apply classifyPosture_of_missing
    rintro ⟨h1, h2, h3, h4⟩
    rcases h with h | h | h | h <;> simp [h] at h1 h2 h3 h4
  · intro α _inst l r lh rh a d
    rw [classifyPosture_of_required]
    · split_ifs <;> simp
    · exact ⟨rfl, rfl, rfl, rfl⟩

/-- Witness for C1: concrete evaluations of the two parts at rational
feature values. -/
theorem classify_missing_landmark_initializing_witness :
    classifyPosture (α := ℚ) ⟨none, none, some ⟨3, 1⟩, some ⟨1, 3⟩, some ⟨3, 3⟩⟩
        1000000 1000000 = PostureStatus.initializing
    ∧ classifyPosture (α := ℚ) ⟨none, some ⟨1, 1⟩, some ⟨3, 1⟩, some ⟨1, 3⟩, some ⟨3, 3⟩⟩
        0 0 ≠ PostureStatus.initializing :=
  ⟨classify_missing_landmark_initializing.1 _ _ _ (Or.inl rfl),
   classify_missing_landmark_initializing.2 _ _ _ _ _ _⟩

/-- Claim C2: with all four shoulder and hip landmarks present,
classifyPosture is bad exactly when the absolute back angle strictly
exceeds 15 or the neck offset strictly exceeds NECK_FORWARD_THRESHOLD,
and good otherwise; both comparisons are strict, checked on the 15.0 and
15.000001 boundary (symmetrically for negative angles) and on the
corresponding neck boundary. -/
theorem classify_bad_iff_thresholds :
    (∀ {α : Type} [LinearOrderedField α]
        (ns : Option Point) (l r lh rh : Point) (a d : α),
        (classifyPosture ⟨ns, some l, some r, some lh, some rh⟩ a d = PostureStatus.bad ↔
          |a| > BACK_ANGLE_THRESHOLD ∨ d > NECK_FORWARD_THRESHOLD)
        ∧ (classifyPosture ⟨ns, some l, some r, some lh, some rh⟩ a d = PostureStatus.good ↔
          |a| ≤ BACK_ANGLE_THRESHOLD ∧ d ≤ NECK_FORWARD_THRESHOLD))
    ∧ classifyPosture (α := ℚ) lmComplete 15 0 = PostureStatus.good
    ∧ classifyPosture (α := ℚ) lmComplete (15 + 1 / 1000000) 0 = PostureStatus.bad
    ∧ classifyPosture (α := ℚ) lmComplete (-(15 + 1 / 1000000)) 0 = PostureStatus.bad
    ∧ classifyPosture (α := ℚ) lmComplete (-15) 30 = PostureStatus.good
    ∧ classifyPosture (α := ℚ) lmComplete 0 (30 + 1 / 1000000) = PostureStatus.bad := by
  have key : ∀ {α : Type} [LinearOrderedField α]
      (ns : Option Point) (l r lh rh : Point) (a d : α),
      (classifyPosture ⟨ns, some l, some r, some lh, some rh⟩ a d = PostureStatus.bad ↔
        |a| > BACK_ANGLE_THRESHOLD ∨ d > NECK_FORWARD_THRESHOLD)
      ∧ (classifyPosture ⟨ns, some l, some r, some lh, some rh⟩ a d = PostureStatus.good ↔
        |a| ≤ BACK_ANGLE_THRESHOLD ∧ d ≤ NECK_FORWARD_THRESHOLD) := by
    intro α _inst ns l r lh rh a d
    rw [classifyPosture_of_required (⟨ns, some l, some r, some lh, some rh⟩ : Landmarks)
      ⟨rfl, rfl, rfl, rfl⟩ a d]
    by_cases hcond : |a| > BACK_ANGLE_THRESHOLD ∨ d > NECK_FORWARD_THRESHOLD
    · rw [if_pos hcond]
      refine ⟨iff_of_true rfl hcond, iff_of_false (fun hb => PostureStatus.noConfusion hb) ?_⟩
      rintro ⟨h1, h2⟩
      rcases hcond with hc | hc
      · exact absurd h1 (not_le.mpr hc)
      · exact absurd h2 (not_le.mpr hc)
    · rw [if_neg hcond]
      push_neg at hcond
      exact ⟨iff_of_false (fun hb => PostureStatus.noConfusion hb)
          (fun hor => hor.elim (fun hc => absurd hcond.1 (not_le.mpr hc))
            (fun hc => absurd hcond.2 (not_le.mpr hc))),
        iff_of_true rfl ⟨hcond.1, hcond.2⟩⟩
  refine ⟨key, ?_, ?_, ?_, ?_, ?_⟩
  · simp only [lmComplete]
    rw [(key (α := ℚ) _ _ _ _ _ _ _).2]
    norm_num [BACK_ANGLE_THRESHOLD, NECK_FORWARD_THRESHOLD]
  · simp only [lmComplete]
    rw [(key (α := ℚ) _ _ _ _ _ _ _).1]
    left
    rw [abs_of_pos (by norm_num)]
    norm_num [BACK_ANGLE_THRESHOLD]
  · simp only [lmComplete]
    rw [(key (α := ℚ) _ _ _ _ _ _ _).1]
    left
    rw [abs_of_neg (by norm_num)]
    norm_num [BACK_ANGLE_THRESHOLD]
  · simp only [lmComplete]
    rw [(key (α := ℚ) _ _ _ _ _ _ _).2]
    norm_num [BACK_ANGLE_THRESHOLD, NECK_FORWARD_THRESHOLD]
  · simp only [lmComplete]
    rw [(key (α := ℚ) _ _ _ _ _ _ _).1]
    right
    norm_num [NECK_FORWARD_THRESHOLD]

/-- Claim C3, counterexample: a present keypoint that carries no
confidence field is rejected (null), not accepted as the claim states,
because the JS truthiness test on kp.score fails for an absent score. -/
theorem findKeypoint_scoreless_counterexample :
    findKeypoint [⟨("nose"), 1, 2, none⟩] ("nose") = none
    ∧ (extractLandmarks [⟨("nose"), 1, 2, none⟩]).nose = none := by
  constructor <;> rfl

/-- Claim C3, amended: the extractor yields a non-null point exactly when
a keypoint with that name is found and carries a confidence score
strictly greater than 0.3 (a keypoint with no confidence field is
rejected); confidence 0.29 yields null, 0.31 yields the coordinates, and
the five landmark fields are the named lookups. -/
theorem findKeypoint_confidence_gate :
    (∀ (keypoints : List Keypoint) (name : String) (p : Point),
        findKeypoint keypoints name = some p ↔
          ∃ kp s, keypoints.find? (fun k => k.name == name) = some kp ∧
            kp.score = some s ∧ 0.3 < s ∧ p = ⟨kp.x, kp.y⟩)
    ∧ (∀ keypoints : List Keypoint,
        extractLandmarks keypoints =
          ⟨findKeypoint keypoints ("nose"),
           findKeypoint keypoints ("left_shoulder"),
           findKeypoint keypoints ("right_shoulder"),
           findKeypoint keypoints ("left_hip"),
           findKeypoint keypoints ("right_hip")⟩)
    ∧ findKeypoint [⟨("nose"), 1, 2, some (29 / 100)⟩] ("nose") = none
    ∧ findKeypoint [⟨("nose"), 1, 2, some (31 / 100)⟩] ("nose") = some ⟨1, 2⟩
    ∧ findKeypoint [⟨("nose"), 1, 2, none⟩] ("nose") = none := by
  refine ⟨?_, fun keypoints => rfl, ?_, ?_, rfl⟩
  · intro keypoints name p
    unfold findKeypoint
    rcases h : keypoints.find? (fun k => k.name == name) with _ | kp
    · simp [h]
    · simp only [h]
      constructor
      · intro hsome
        rcases hs : kp.score with _ | s
        · simp only [hs] at hsome
          exact absurd hsome (by simp)
        · simp only [hs] at hsome
          by_cases h3 : (0.3 : ℚ) < s
          · rw [if_pos h3, Option.some_inj] at hsome
            exact ⟨kp, s, rfl, hs, h3, hsome.symm⟩
          · rw [if_neg h3] at hsome
            exact absurd hsome (by simp)
      · rintro ⟨kp2, s, hkp2, hs2, h3, hp⟩
        rw [Option.some_inj] at hkp2
        subst hkp2
        simp only [hs2]
        rw [if_pos h3, hp]
  · show (if (0.3 : ℚ) < 29 / 100 then some (⟨1, 2⟩ : Point) else none) = none
    rw [if_neg (by norm_num)]
  · show (if (0.3 : ℚ) < 31 / 100 then some (⟨1, 2⟩ : Point) else none) = some ⟨1, 2⟩
    rw [if_pos (by norm_num)]

/-- Lookup of an absent name on the test pose keypoints. -/
theorem findKeypoint_testPose_nose : findKeypoint testPose.keypoints ("nose") = none := by
  have h : testPose.keypoints.find? (fun k => k.name == "nose") = none := by
    simp [testPose, List.find?]
  unfold findKeypoint
  rw [h]

/-- Lookup of each present name on the test pose keypoints. -/
theorem findKeypoint_testPose_ls :
    findKeypoint testPose.keypoints ("left_shoulder") = some ⟨1, 1⟩ := by
  have h : testPose.keypoints.find? (fun k => k.name == "left_shoulder") =
      some ⟨("left_shoulder"), 1, 1, some (9 / 10)⟩ := by
    simp [testPose, List.find?]
  unfold findKeypoint
  rw [h]
  show (if (0.3 : ℚ) < 9 / 10 then some (⟨1, 1⟩ : Point) else none) = some ⟨1, 1⟩
  rw [if_pos (by norm_num)]

/-- Lookup of the right shoulder on the test pose keypoints. -/
theorem findKeypoint_testPose_rs :
    findKeypoint testPose.keypoints ("right_shoulder") = some ⟨3, 1⟩ := by
  have h : testPose.keypoints.find? (fun k => k.name == "right_shoulder") =
      some ⟨("right_shoulder"), 3, 1, some (9 / 10)⟩ := by
    simp [testPose, List.find?]
  unfold findKeypoint
  rw [h]
  show (if (0.3 : ℚ) < 9 / 10 then some (⟨3, 1⟩ : Point) else none) = some ⟨3, 1⟩
  rw [if_pos (by norm_num)]

/-- Lookup of the left hip on the test pose keypoints. -/
theorem findKeypoint_testPose_lh :
    findKeypoint testPose.keypoints ("left_hip") = some ⟨1, 3⟩ := by
  have h : testPose.keypoints.find? (fun k => k.name == "left_hip") =
      some ⟨("left_hip"), 1, 3, some (9 / 10)⟩ := by
    simp [testPose, List.find?]
  unfold findKeypoint
  rw [h]
  show (if (0.3 : ℚ) < 9 / 10 then some (⟨1, 3⟩ : Point) else none) = some ⟨1, 3⟩
  rw [if_pos (by norm_num)]

/-- Lookup of the right hip on the test pose keypoints. -/
theorem findKeypoint_testPose_rh :
    findKeypoint testPose.keypoints ("right_hip") = some ⟨3, 3⟩ := by
  have h : testPose.keypoints.find? (fun k => k.name == "right_hip") =
      some ⟨("right_hip"), 3, 3, some (9 / 10)⟩ := by
    simp [testPose, List.find?]
  unfold findKeypoint
  rw [h]
  show (if (0.3 : ℚ) < 9 / 10 then some (⟨3, 3⟩ : Point) else none) = some ⟨3, 3⟩
  rw [if_pos (by norm_num)]

/-- Extraction evaluated on the test pose. -/
theorem extractLandmarks_testPose : extractLandmarks testPose.keypoints = lmGood := by
  unfold extractLandmarks lmGood
  rw [findKeypoint_testPose_nose, findKeypoint_testPose_ls, findKeypoint_testPose_rs,
    findKeypoint_testPose_lh, findKeypoint_testPose_rh]

/-- atan2 of a zero first component and positive second component is 0. -/
theorem atan2_zero_of_pos (x : ℝ) (hx : 0 < x) : atan2 0 x = 0 := by
  unfold atan2
  rw [if_pos hx, zero_div, Real.arctan_zero]

/-- Midpoints of the test landmark set. -/
theorem shoulderMid_lmGood : shoulderMid lmGood = ⟨2, 1⟩ := by
  show (⟨(1 + 3) / 2, (1 + 1) / 2⟩ : Point) = ⟨2, 1⟩
  rw [Point.mk.injEq]
  norm_num

/-- Hip midpoint of the test landmark set. -/
theorem hipMid_lmGood : hipMid lmGood = ⟨2, 3⟩ := by
  show (⟨(1 + 3) / 2, (3 + 3) / 2⟩ : Point) = ⟨2, 3⟩
  rw [Point.mk.injEq]
  norm_num

/-- The back angle of the vertically aligned test landmarks is 0. -/
theorem computeBackAngle_lmGood : computeBackAngle lmGood = 0 := by
  unfold computeBackAngle
  rw [shoulderMid_lmGood, hipMid_lmGood, if_pos (by norm_num)]
  unfold calculateAngleFromVertical
  norm_num
  rw [atan2_zero_of_pos 2 (by norm_num)]
  simp

/-- The full frame update on the test pose, from any previous snapshot. -/
theorem processFrameUpdate_testPose (prev : PostureData) :
    processFrameUpdate prev [testPose] =
      ⟨PostureStatus.good, lmGood, 0, 0, 9 / 10⟩ := by
  have hneck : neckForwardDistance lmGood = 0 := rfl
  have hclass : classifyPosture lmGood (0 : ℝ) (((0 : ℚ) : ℝ)) = PostureStatus.good := by
    rw [classifyPosture_of_required lmGood ⟨rfl, rfl, rfl, rfl⟩]
    rw [if_neg]
    push_neg
    constructor
    · rw [abs_zero]
      norm_num [BACK_ANGLE_THRESHOLD]
    · norm_num [NECK_FORWARD_THRESHOLD]
  simp only [processFrameUpdate, extractLandmarks_testPose, computeBackAngle_lmGood,
    hneck, hclass]
  simp [testPose]

/-- The invariant of every snapshot that processFrame passes to
setPostureData. -/
def publishedInvariant (d : PostureData) : Prop :=
  ((d.status = PostureStatus.good ∨ d.status = PostureStatus.bad) →
    requiredLandmarksPresent d.landmarks)
  ∧ (d.landmarks.nose = none → d.neckAngle = 0)
  ∧ (d.landmarks.nose = none → d.status = PostureStatus.bad →
      |d.backAngle| > BACK_ANGLE_THRESHOLD)

/-- An absent nose forces a zero neck-forward distance. -/
theorem neckForwardDistance_of_nose_none (lm : Landmarks) (h : lm.nose = none) :
    neckForwardDistance lm = 0 := by
  unfold neckForwardDistance
  rw [h]

/-- Every snapshot assembled from a nonempty pose list satisfies the
published-snapshot invariant. -/
theorem publishedInvariant_processFrameUpdate (prev : PostureData)
    (pose : Pose) (rest : List Pose) :
    publishedInvariant (processFrameUpdate prev (pose :: rest)) := by
  unfold publishedInvariant processFrameUpdate
  refine ⟨?_, ?_, ?_⟩
  · intro h
    exact requiredLandmarksPresent_of_classify _ _ _ h
  · intro h
    exact neckForwardDistance_of_nose_none _ h
  · intro hnose hbad
    simp only at hnose hbad ⊢
    rw [neckForwardDistance_of_nose_none _ hnose] at hbad
    have hreq := requiredLandmarksPresent_of_classify _ _ _ (Or.inr hbad)
    rw [classifyPosture_of_required _ hreq] at hbad
    by_cases hc : |computeBackAngle (extractLandmarks pose.keypoints)| > BACK_ANGLE_THRESHOLD ∨
        (((0 : ℚ) : ℝ)) > NECK_FORWARD_THRESHOLD
    · rcases hc with hc | hc
      · exact hc
      · rw [Rat.cast_zero] at hc
        exact absurd hc (by norm_num [NECK_FORWARD_THRESHOLD])
    · rw [if_neg hc] at hbad
      exact PostureStatus.noConfusion hbad

/-- The step relation only ever appends invariant-satisfying snapshots to
the publication log. -/
theorem step_log_invariant (s : SessionState) (e : Event)
    (h : ∀ d ∈ s.log, publishedInvariant d) :
    ∀ d ∈ (step s e).log, publishedInvariant d := by
  cases e with
  | start =>
      simp only [step]
      split_ifs <;> exact h
  | stop =>
      simp only [step]
      rcases hr : s.ref with _ | id <;> simp only [hr] <;> exact h
  | fire =>
      simp only [step]
      rcases hp : s.pending with _ | id <;> simp only [hp] <;> exact h
  | resolveOk poses =>
      simp only [step]
      by_cases h0 : s.inflight = 0
      · rw [if_pos h0]
        exact h
      · rw [if_neg h0]
        rcases poses with _ | ⟨pose, rest⟩
        · simpa using h
        · intro d hd
          simp only [List.isEmpty_cons, Bool.false_eq_true, if_false, List.mem_append,
            List.mem_singleton] at hd
          rcases hd with hd | hd
          · exact h d hd
          · subst hd
            exact publishedInvariant_processFrameUpdate s.data pose rest
  | resolveErr =>
      simp only [step]
      split_ifs <;> exact h

/-- Running any event list preserves the log invariant. -/
theorem run_log_invariant (events : List Event) :
    ∀ s : SessionState, (∀ d ∈ s.log, publishedInvariant d) →
      ∀ d ∈ (run s events).log, publishedInvariant d := by
  induction events with
  | nil => intro s h; exact h
  | cons e rest ih =>
      intro s h
      exact ih (step s e) (step_log_invariant s e h)

/-- Claim C5: every published snapshot with status good or bad has all
four shoulder and hip landmarks non-null; the nose may be null, in which
case the published neck offset is 0 and the snapshot can only be bad
through the back-angle condition. -/
theorem published_snapshot_invariant (events : List Event) (d : PostureData)
    (hd : d ∈ (run initialState events).log) :
    ((d.status = PostureStatus.good ∨ d.status = PostureStatus.bad) →
      requiredLandmarksPresent d.landmarks)
    ∧ (d.landmarks.nose = none → d.neckAngle = 0)
    ∧ (d.landmarks.nose = none → d.status = PostureStatus.bad →
        |d.backAngle| > BACK_ANGLE_THRESHOLD) :=
  run_log_invariant events initialState (by intro d hd; exact absurd hd (by simp [initialState])) d hd

/-- Witness for C5: the concrete good snapshot published on the test pose
is in the log of a concrete session run and has the four required
landmarks. -/
theorem published_snapshot_invariant_witness :
    (processFrameUpdate initialPostureData [testPose]).status = PostureStatus.good
    ∧ requiredLandmarksPresent (processFrameUpdate initialPostureData [testPose]).landmarks := by
  have hmem : processFrameUpdate initialPostureData [testPose] ∈
      (run initialState [Event.start, Event.resolveOk [testPose]]).log := by
    simp [run, step, initialState]
  have hstat : (processFrameUpdate initialPostureData [testPose]).status = PostureStatus.good := by
    rw [processFrameUpdate_testPose]
  exact ⟨hstat, (published_snapshot_invariant _ _ hmem).1 (Or.inl hstat)⟩

/-- Claim C4, exhibiting the code bug: startDetection begins a frame whose
estimatePoses call is in flight; stopDetection then runs (the animation
frame ref is still null, so cancelAnimationFrame is not even reached) and
returns; when the in-flight call resolves, the snapshot is nevertheless
published through setPostureData and a new animation frame is scheduled,
so the loop keeps running after stop. -/
theorem stop_does_not_cancel_inflight :
    (run initialState [Event.start, Event.stop]).log = []
    ∧ (run initialState [Event.start, Event.stop]).pending = none
    ∧ 0 < (run initialState [Event.start, Event.stop]).inflight
    ∧ (run initialState [Event.start, Event.stop, Event.resolveOk [testPose]]).log =
        [processFrameUpdate initialPostureData [testPose]]
    ∧ (run initialState [Event.start, Event.stop, Event.resolveOk [testPose]]).pending = some 1 := by
  refine ⟨?_, ?_, ?_, ?_, ?_⟩ <;> simp [run, step, initialState]

/-- Claim C8, counterexample: after a detected pose made the published
status good, a frame with zero detected poses does not reset the
published snapshot to the all-null initializing snapshot; the previous
good snapshot stays published, with its non-null landmarks. -/
theorem zero_poses_keeps_previous_counterexample :
    (run initialState [Event.start, Event.resolveOk [testPose], Event.fire,
        Event.resolveOk []]).data.status = PostureStatus.good
    ∧ (run initialState [Event.start, Event.resolveOk [testPose], Event.fire,
        Event.resolveOk []]).data.landmarks.leftShoulder ≠ none
    ∧ (run initialState [Event.start, Event.resolveOk [testPose], Event.fire,
        Event.resolveOk []]).log.length = 1 := by
  have hrun : (run initialState [Event.start, Event.resolveOk [testPose], Event.fire,
      Event.resolveOk []]).data = processFrameUpdate initialPostureData [testPose] := by
    simp [run, step, initialState, processFrameUpdate]
  refine ⟨?_, ?_, ?_⟩
  · rw [hrun, processFrameUpdate_testPose]
  · rw [hrun, processFrameUpdate_testPose]
    simp [lmGood]
  · simp [run, step, initialState, processFrameUpdate]

/-- Claim C8, amended: a zero-pose frame performs no snapshot update at
all (previous data persists, nothing is published), and a nonempty pose
list is processed from its first pose. -/
theorem zero_poses_no_update :
    (∀ prev : PostureData, processFrameUpdate prev [] = prev)
    ∧ (∀ s : SessionState, 0 < s.inflight →
        (step s (Event.resolveOk [])).data = s.data
        ∧ (step s (Event.resolveOk [])).log = s.log)
    ∧ (∀ (prev : PostureData) (pose : Pose) (rest : List Pose),
        (processFrameUpdate prev (pose :: rest)).landmarks =
          extractLandmarks pose.keypoints) := by
  refine ⟨fun prev => rfl, ?_, fun prev pose rest => rfl⟩
  intro s hs
  simp only [step]
  rw [if_neg (Nat.pos_iff_ne_zero.mp hs)]
  exact ⟨rfl, rfl⟩

/-- Witness for the amended C8: applied to the session state right after
startDetection, whose inference call is in flight. -/
theorem zero_poses_no_update_witness :
    (step (run initialState [Event.start]) (Event.resolveOk [])).data =
      (run initialState [Event.start]).data
    ∧ (step (run initialState [Event.start]) (Event.resolveOk [])).log =
      (run initialState [Event.start]).log :=
  zero_poses_no_update.2.1 (run initialState [Event.start]) (by simp [run, step, initialState])

/-- Claim C9: when the in-flight inference call rejects, the error path
leaves the published snapshot and the log unchanged and still schedules
the next sampling tick, so one failure never terminates the loop. -/
theorem inference_error_skips_frame (s : SessionState) (hs : 0 < s.inflight) :
    (step s Event.resolveErr).data = s.data
    ∧ (step s Event.resolveErr).log = s.log
    ∧ (step s Event.resolveErr).pending = some s.nextId
    ∧ (step s Event.resolveErr).ref = some s.nextId
    ∧ (step s Event.resolveErr).inflight = s.inflight - 1 := by
  simp only [step]
  rw [if_neg (Nat.pos_iff_ne_zero.mp hs)]
  exact ⟨rfl, rfl, rfl, rfl, rfl⟩

/-- Witness for C9: applied to the session state right after
startDetection. -/
theorem inference_error_skips_frame_witness :
    (step (run initialState [Event.start]) Event.resolveErr).data =
      (run initialState [Event.start]).data
    ∧ (step (run initialState [Event.start]) Event.resolveErr).pending =
      some (run initialState [Event.start]).nextId := by
  have h := inference_error_skips_frame (run initialState [Event.start])
    (by simp [run, step, initialState])
  exact ⟨h.1, h.2.2.1⟩

/-- The data field is preserved by any step that does not resolve a
nonempty pose list. -/
theorem step_data_preserved (s : SessionState) (e : Event)
    (h : ∀ poses : List Pose, e = Event.resolveOk poses → poses = []) :
    (step s e).data = s.data := by
  cases e with
  | start =>
      simp only [step]
      split_ifs <;> rfl
  | stop =>
      simp only [step]
      rcases hr : s.ref with _ | id <;> simp only [hr]
  | fire =>
      simp only [step]
      rcases hp : s.pending with _ | id <;> simp only [hp]
  | resolveOk poses =>
      have hp : poses = [] := h poses rfl
      subst hp
      simp only [step]
      split_ifs <;> rfl
  | resolveErr =>
      simp only [step]
      split_ifs <;> rfl

/-- Claim C10: the initial published posture data is exactly the
initializing snapshot with all-null landmarks and zero angles and
confidence, and it remains the published data for as long as no frame
with at least one detected pose has been processed. -/
theorem initial_data_until_first_pose :
    initialPostureData =
      ⟨PostureStatus.initializing, ⟨none, none, none, none, none⟩, 0, 0, 0⟩
    ∧ ∀ events : List Event,
        (∀ poses : List Pose, Event.resolveOk poses ∈ events → poses = []) →
        (run initialState events).data = initialPostureData := by
  have general : ∀ (events : List Event) (s : SessionState),
      (∀ poses : List Pose, Event.resolveOk poses ∈ events → poses = []) →
      (run s events).data = s.data := by
    intro events
    induction events with
    | nil => intro s _; rfl
    | cons e rest ih =>
        intro s h
        have hrest : ∀ poses : List Pose, Event.resolveOk poses ∈ rest → poses = [] :=
          fun poses hm => h poses (List.mem_cons_of_mem _ hm)
        have he : ∀ poses : List Pose, e = Event.resolveOk poses → poses = [] :=
          fun poses hp => h poses (hp ▸ List.mem_cons_self _ _)
        calc (run s (e :: rest)).data = (run (step s e) rest).data := rfl
          _ = (step s e).data := ih (step s e) hrest
          _ = s.data := step_data_preserved s e he
  exact ⟨rfl, fun events h => general events initialState h⟩

/-- Witness for C10: a concrete run with a start, an empty-pose
resolution, a fired tick and a failed inference keeps the initial
data. -/
theorem initial_data_until_first_pose_witness :
    (run initialState [Event.start, Event.resolveOk [], Event.fire, Event.resolveErr]).data =
      initialPostureData :=
  initial_data_until_first_pose.2 _ (by
    intro poses hmem
    simp only [List.mem_cons, List.mem_singleton] at hmem
    rcases hmem with h | h | h | h <;> simp_all)

/-- Claim C6, amended: the midpoints are coordinate-wise averages when
both contributing landmarks are present and (0, 0) otherwise, and the
back angle is atan2(dx, dy) converted to degrees with
dx = shoulderMid.x - hipMid.x and dy = hipMid.y - shoulderMid.y — but
computed exactly when both midpoint y coordinates are nonzero (not when
the midpoints are non-degenerate), and 0 otherwise; with the shoulder
midpoint straight above the hip midpoint the angle is 0. -/
theorem backAngle_formula :
    (∀ (ns : Option Point) (l r : Point) (lh rh : Option Point),
        shoulderMid ⟨ns, some l, some r, lh, rh⟩ = ⟨(l.x + r.x) / 2, (l.y + r.y) / 2⟩)
    ∧ (∀ (ns ls rs : Option Point) (lh rh : Point),
        hipMid ⟨ns, ls, rs, some lh, some rh⟩ = ⟨(lh.x + rh.x) / 2, (lh.y + rh.y) / 2⟩)
    ∧ (∀ (ns rs lh rh : Option Point), shoulderMid ⟨ns, none, rs, lh, rh⟩ = ⟨0, 0⟩)
    ∧ (∀ (ns ls lh rh : Option Point), shoulderMid ⟨ns, ls, none, lh, rh⟩ = ⟨0, 0⟩)
    ∧ (∀ (ns ls rs rh : Option Point), hipMid ⟨ns, ls, rs, none, rh⟩ = ⟨0, 0⟩)
    ∧ (∀ (ns ls rs lh : Option Point), hipMid ⟨ns, ls, rs, lh, none⟩ = ⟨0, 0⟩)
    ∧ (∀ lm : Landmarks,
        computeBackAngle lm =
          if (shoulderMid lm).y ≠ 0 ∧ (hipMid lm).y ≠ 0 then
            atan2 ((((shoulderMid lm).x - (hipMid lm).x : ℚ)) : ℝ)
                ((((hipMid lm).y - (shoulderMid lm).y : ℚ)) : ℝ) * 180 / Real.pi
          else 0)
    ∧ (∀ lm : Landmarks,
        (shoulderMid lm).x = (hipMid lm).x →
        (shoulderMid lm).y ≠ 0 → (hipMid lm).y ≠ 0 →
        (shoulderMid lm).y < (hipMid lm).y →
        computeBackAngle lm = 0) := by
  refine ⟨fun ns l r lh rh => rfl, fun ns ls rs lh rh => rfl,
    fun ns rs lh rh => rfl,
    ?_, fun ns ls rs rh => rfl, ?_, ?_, ?_⟩
  · intro ns ls lh rh
    cases ls <;> rfl
  · intro ns ls rs lh
    cases lh <;> rfl
  · intro lm
    unfold computeBackAngle calculateAngleFromVertical
    split_ifs with h
    · push_cast
      ring_nf
    · rfl
  · intro lm hx hys hyh hlt
    unfold computeBackAngle calculateAngleFromVertical
    rw [if_pos ⟨hys, hyh⟩]
    have hdx : ((shoulderMid lm).x : ℝ) - ((hipMid lm).x : ℝ) = 0 := by
      rw [hx]
      ring
    have hdy : (0 : ℝ) < ((hipMid lm).y : ℝ) - ((shoulderMid lm).y : ℝ) := by
      rw [sub_pos]
      exact_mod_cast hlt
    rw [hdx, atan2_zero_of_pos _ hdy]
    simp

/-- Witness for the amended C6: concrete evaluation of the zero-angle
clause on the vertically aligned test landmark set. -/
theorem backAngle_formula_witness :
    computeBackAngle lmGood = 0 :=
  backAngle_formula.2.2.2.2.2.2.2 lmGood
    (by rw [shoulderMid_lmGood, hipMid_lmGood])
    (by rw [shoulderMid_lmGood]; norm_num)
    (by rw [hipMid_lmGood]; norm_num)
    (by rw [shoulderMid_lmGood, hipMid_lmGood]; norm_num)

/-- Claim C6, counterexample: landmarks whose two midpoints are both
non-degenerate (different from (0, 0)) yet whose back angle is the
default 0 rather than the claimed atan2 formula value of 45 degrees,
because the code guards on the midpoint y coordinates only. -/
theorem backAngle_nondegenerate_counterexample :
    shoulderMid lmC6 = ⟨1, 0⟩
    ∧ hipMid lmC6 = ⟨0, 1⟩
    ∧ shoulderMid lmC6 ≠ (⟨0, 0⟩ : Point)
    ∧ hipMid lmC6 ≠ (⟨0, 0⟩ : Point)
    ∧ computeBackAngle lmC6 = 0
    ∧ atan2 ((((shoulderMid lmC6).x - (hipMid lmC6).x : ℚ)) : ℝ)
        ((((hipMid lmC6).y - (shoulderMid lmC6).y : ℚ)) : ℝ) * 180 / Real.pi = 45 := by
  have hs : shoulderMid lmC6 = ⟨1, 0⟩ := by
    show (⟨(0 + 2) / 2, (0 + 0) / 2⟩ : Point) = ⟨1, 0⟩
    rw [Point.mk.injEq]
    norm_num
  have hh : hipMid lmC6 = ⟨0, 1⟩ := by
    show (⟨(-1 + 1) / 2, (1 + 1) / 2⟩ : Point) = ⟨0, 1⟩
    rw [Point.mk.injEq]
    norm_num
  refine ⟨hs, hh, ?_, ?_, ?_, ?_⟩
  · rw [hs]
    intro hcontra
    rw [Point.mk.injEq] at hcontra
    exact one_ne_zero hcontra.1
  · rw [hh]
    intro hcontra
    rw [Point.mk.injEq] at hcontra
    exact one_ne_zero hcontra.2
  · unfold computeBackAngle
    rw [if_neg]
    rw [hs, hh]
    rintro ⟨h1, _⟩
    exact h1 rfl
  · rw [hs, hh]
    have h1 : (((1 : ℚ) - 0 : ℚ) : ℝ) = 1 := by norm_num
    show atan2 (((1 : ℚ) - 0 : ℚ) : ℝ) (((1 : ℚ) - 0 : ℚ) : ℝ) * 180 / Real.pi = 45
    rw [h1]
    unfold atan2
    rw [if_pos (by norm_num : (0 : ℝ) < 1)]
    rw [div_one, Real.arctan_one]
    field_simp
    ring

/-- Claim C7, amended: the neck forward distance is the absolute
horizontal nose offset exactly when the nose is present and the shoulder
midpoint x coordinate is nonzero (not when the shoulder midpoint is
non-degenerate), and 0 in every other case; the published neckAngle field
is exactly this total function of the extracted landmarks. -/
theorem neckForwardDistance_characterization :
    (∀ (lm : Landmarks) (nose : Point), lm.nose = some nose →
        (shoulderMid lm).x ≠ 0 →
        neckForwardDistance lm = |nose.x - (shoulderMid lm).x|)
    ∧ (∀ lm : Landmarks, lm.nose = none → neckForwardDistance lm = 0)
    ∧ (∀ (lm : Landmarks), (shoulderMid lm).x = 0 → neckForwardDistance lm = 0)
    ∧ (∀ (prev : PostureData) (pose : Pose) (rest : List Pose),
        (processFrameUpdate prev (pose :: rest)).neckAngle =
          neckForwardDistance (extractLandmarks pose.keypoints)) := by
  refine ⟨?_, ?_, ?_, fun prev pose rest => rfl⟩
  · intro lm nose hn hx
    unfold neckForwardDistance
    rw [hn]
    exact if_pos hx
  · intro lm hn
    unfold neckForwardDistance
    rw [hn]
  · intro lm hx
    unfold neckForwardDistance
    rcases hn : lm.nose with _ | nose
    · rfl
    · exact if_neg (fun hne => hne hx)

/-- Shoulder midpoint of the lmW landmark set. -/
theorem shoulderMid_lmW : shoulderMid lmW = ⟨2, 2⟩ := by
  show (⟨(1 + 3) / 2, (2 + 2) / 2⟩ : Point) = ⟨2, 2⟩
  rw [Point.mk.injEq]
  norm_num

/-- Witness for the amended C7: a nose at x = 5 with shoulder midpoint
x = 2 gives the absolute offset. -/
theorem neckForwardDistance_characterization_witness :
    neckForwardDistance lmW = |(5 : ℚ) - (shoulderMid lmW).x| :=
  neckForwardDistance_characterization.1 lmW ⟨5, 5⟩ rfl (by
    rw [shoulderMid_lmW]
    norm_num)

/-- Claim C7, counterexample: a present nose with a non-degenerate
shoulder midpoint (different from (0, 0)) whose x coordinate happens to
be 0: the code returns the default 0, while the claim demands the
absolute nose offset 5. -/
theorem neckForward_nondegenerate_counterexample :
    lmC7.nose = some ⟨5, 5⟩
    ∧ shoulderMid lmC7 = ⟨0, 2⟩
    ∧ shoulderMid lmC7 ≠ (⟨0, 0⟩ : Point)
    ∧ neckForwardDistance lmC7 = 0
    ∧ |(5 : ℚ) - (shoulderMid lmC7).x| = 5 := by
  have hs : shoulderMid lmC7 = ⟨0, 2⟩ := by
    show (⟨(-1 + 1) / 2, (2 + 2) / 2⟩ : Point) = ⟨0, 2⟩
    rw [Point.mk.injEq]
    norm_num
  refine ⟨rfl, hs, ?_, ?_, ?_⟩
  · rw [hs]
    intro hcontra
    rw [Point.mk.injEq] at hcontra
    exact two_ne_zero hcontra.2
  · unfold neckForwardDistance
    show (if (shoulderMid lmC7).x ≠ 0 then |(5 : ℚ) - (shoulderMid lmC7).x| else 0) = 0
    rw [hs]
    exact if_neg (fun hne => hne rfl)
  · rw [hs]
    norm_num

end PosturePal
